import Mathlib

/-!
Shallow embedding of the go-vee library (package `govee`): semantic value
types (`types.go`), the wire payload types (`api.go`), the per-device state
machine (`device.go`), and the controller's listener / dispatcher loops
(`controller.go`).

Conventions of the embedding:
* Go byte strings are `List Char` (every byte of interest is ASCII).
* Go `uint` is `Nat`; Go `int` is `Int` (the claims under study never reach
  the 64-bit overflow boundary, and Go's `strconv.Atoi` range check is
  therefore not modelled).
* A method on a pointer receiver that mutates its receiver is a function
  returning the new receiver value (paired with the returned error, if any).
* Channels: the device's `statusUpdate` channel is `make(chan time.Time, 1)`,
  a single-slot buffer; with no receiver blocked on it, it is modelled as an
  `Option Nat` slot (`none` = empty buffer). `time.Time` values are `Nat`.
* A `select` statement with a `default` arm never blocks: Go picks one of the
  ready communication arms (nondeterministically when several are ready) and
  falls to `default` only when none is ready.  It is modelled as a function
  from the readiness of each arm to the list of possible outcomes.
-/

/- ## Value types (types.go) -/

/-- `State` is the on/off state of a device (Go `uint`). -/
abbrev State := Nat

/-- `NewBrightness`: brightness constructor with a maximum of 100. -/
def NewBrightness (value : Nat) : Nat :=
  if value > 100 then 100 else value

/-- `Color` is an RGB color (Go `uint` channels). -/
structure Color where
  R : Nat
  G : Nat
  B : Nat
deriving DecidableEq, Repr

/-- `NewColor`: clamps each of r/g/b to at most 255. -/
def NewColor (r g b : Nat) : Color :=
  let r := if r > 255 then 255 else r
  let g := if g > 255 then 255 else g
  let b := if b > 255 then 255 else b
  ⟨r, g, b⟩

/-- `NewColorKelvin`: color temperature constructor; raises values below
2000 to 2000, then lowers values above 9000 to 9000. -/
def NewColorKelvin (value : Nat) : Nat :=
  let value := if value < 2000 then 2000 else value
  let value := if value > 9000 then 9000 else value
  value

/- ## Decimal strings: Go `fmt` "%d" and `strconv.Atoi` -/

/-- The ASCII digit character for `d` (used by decimal formatting). -/
def digitChar (d : Nat) : Char := Char.ofNat (48 + d)

/-- Fuel-indexed decimal formatter (structural recursion on the fuel so
the kernel can evaluate it; the fuel is irrelevant once it exceeds `n`). -/
def natReprAux : Nat → Nat → List Char
  | 0, _ => []
  | fuel + 1, n =>
    if n < 10 then [digitChar n]
    else natReprAux fuel (n / 10) ++ [digitChar (n % 10)]

/-- Decimal representation of a natural number, most significant digit
first, as produced by Go's `fmt` verb `%d`. -/
def natRepr (n : Nat) : List Char := natReprAux (n + 1) n

/-- Decimal representation of a Go `int` under `%d`: a minus sign followed
by the digits for negative values, the plain digits otherwise. -/
def intRepr (n : Int) : List Char :=
  if n < 0 then '-' :: natRepr n.natAbs else natRepr n.toNat

/-- The digit test of `strconv.Atoi`'s fast path: ASCII `'0'` through `'9'`. -/
def isDigitCh (c : Char) : Bool := 48 ≤ c.toNat && c.toNat ≤ 57

/-- Accumulate the value of a digit string (most significant first). -/
def digitsVal (l : List Char) : Nat :=
  l.foldl (fun a c => 10 * a + (c.toNat - 48)) 0

/-- Parse a nonempty all-digit string; `none` on the empty string or any
non-digit byte, as in `strconv.Atoi` after sign stripping. -/
def parseDigits (l : List Char) : Option Nat :=
  if l ≠ [] ∧ l.all isDigitCh then some (digitsVal l) else none

/-- `strconv.Atoi`: optional sign, then a nonempty run of digits.  The
int64 range check is not modelled (see the header). -/
def atoi : List Char → Option Int
  | [] => none
  | c :: cs =>
    if c = '-' then (parseDigits cs).map (fun m => -(m : Int))
    else if c = '+' then (parseDigits cs).map (fun m => (m : Int))
    else (parseDigits (c :: cs)).map (fun m => (m : Int))

/-- `bytes.Trim(b, "\x22")`: drop leading and trailing quote bytes. -/
def trimQuotes (l : List Char) : List Char :=
  (((l.dropWhile (· == '"')).reverse).dropWhile (· == '"')).reverse

/- ## Version (types.go) -/

/-- `Version`: a semantic version triple of Go `int`s. -/
structure Version where
  Major : Int
  Minor : Int
  Patch : Int
deriving DecidableEq, Repr

/-- `NewVersion` constructor. -/
def NewVersion (major minor patch : Int) : Version :=
  ⟨major, minor, patch⟩

/-- The errors reachable from `Version.UnmarshalJSON`: the bare
`ErrInvalidVersionFormat`, and the three `fmt.Errorf("...: %w", ...)`
wrappers around it. -/
inductive VersionError where
  | invalidFormat
  | invalidMajor
  | invalidMinor
  | invalidPatch
deriving DecidableEq, Repr

/-- Whether the error is one of the `%w` wrappers around
`ErrInvalidVersionFormat` (all four satisfy `errors.Is`, but only three
wrap it). -/
def VersionError.wrapsInvalidFormat : VersionError → Bool
  | .invalidFormat => false
  | _ => true

/-- `Version.String`: `fmt.Sprintf("%d.%d.%d", Major, Minor, Patch)`. -/
def Version.string (v : Version) : List Char :=
  intRepr v.Major ++ '.' :: (intRepr v.Minor ++ '.' :: intRepr v.Patch)

/-- `Version.MarshalJSON`: `json.Marshal(v.String())`, which wraps the
dotted string (digits, dots, an optional minus sign — nothing JSON
escapes) in quotes. -/
def Version.marshalJSON (v : Version) : List Char :=
  '"' :: (v.string ++ ['"'])

/-- `Version.UnmarshalJSON` on receiver value `v` and input bytes `b`:
returns the receiver's final value and the returned error.  Mirrors the
source: trim quotes, split on `'.'`; fewer or more than three components
returns the bare format error with the receiver untouched; a component
`strconv.Atoi` failure zeroes all three fields and returns a wrapping
error; otherwise the three parsed values are assigned. -/
def Version.unmarshalJSON (v : Version) (b : List Char) :
    Version × Option VersionError :=
  let val := (trimQuotes b).splitOn '.'
  if val.length ≠ 3 then (v, some .invalidFormat)
  else
    match atoi (val.getD 0 []) with
    | none => (⟨0, 0, 0⟩, some .invalidMajor)
    | some major =>
      match atoi (val.getD 1 []) with
      | none => (⟨0, 0, 0⟩, some .invalidMinor)
      | some minor =>
        match atoi (val.getD 2 []) with
        | none => (⟨0, 0, 0⟩, some .invalidPatch)
        | some patch => (⟨major, minor, patch⟩, none)

/- ## Wire payload types (api.go) -/

/-- `scanResponse`: identity fields of a scan reply. -/
structure scanResponse where
  IP : String
  DeviceID : String
  SKU : String
  BleVersionHard : Version
  BleVersionSoft : Version
  WifiVersionHard : Version
  WifiVersionSoft : Version
deriving DecidableEq, Repr

/-- `devStatusResponse`: state fields of a device status reply.  The
fields are decoded straight from JSON numbers — the clamping constructors
are not applied on this path. -/
structure devStatusResponse where
  OnOff : State
  Brightness : Nat
  Color : Color
  ColorKelvin : Nat
deriving DecidableEq, Repr

/-- `onOffRequest`: payload of a `turn` command (`0` = off, `1` = on). -/
structure onOffRequest where
  Value : State
deriving DecidableEq, Repr

/-- The payloads the listener routes to a device worker, as a tagged
union over the two dynamically type-switched cases of `Device.handler`. -/
inductive ResponsePayload where
  | scan (msg : scanResponse)
  | devStatus (msg : devStatusResponse)
deriving DecidableEq, Repr

/- ## Device state machine (device.go) -/

/-- The state of one `Device`: its identity and cached state fields,
`seen` timestamp, and the single-slot `statusUpdate` buffer (`none` =
empty; the channel is `make(chan time.Time, 1)`). -/
structure Device where
  seen : Nat
  ip : String
  deviceID : String
  sku : String
  bleVersionHard : Version
  bleVersionSoft : Version
  wifiVersionHard : Version
  wifiVersionSoft : Version
  state : State
  brightness : Nat
  color : Color
  colorKelvin : Nat
  statusUpdate : Option Nat
deriving DecidableEq, Repr

/-- The non-blocking send `select { case d.statusUpdate <- time.Now():
default: }` on the single-slot buffer with no blocked receiver: an empty
slot stores the signal; an occupied slot drops it. -/
def emitStatusSignal (slot : Option Nat) (now : Nat) : Option Nat :=
  match slot with
  | none => some now
  | some t => some t

/-- A receive attempt from the `statusUpdate` buffer: returns the emptied
slot and whether a signal was consumed. -/
def consumeStatusSignal (slot : Option Nat) : Option Nat × Bool :=
  match slot with
  | some _ => (none, true)
  | none => (none, false)

/-- One iteration of `Device.handler` applied to a routed response: a scan
response overwrites the identity fields, a status response overwrites the
state fields and emits the completion signal; both update `seen`. -/
def Device.applyResponse (d : Device) (now : Nat) :
    ResponsePayload → Device
  | .scan payload =>
    { d with
      ip := payload.IP
      deviceID := payload.DeviceID
      sku := payload.SKU
      bleVersionHard := payload.BleVersionHard
      bleVersionSoft := payload.BleVersionSoft
      wifiVersionHard := payload.WifiVersionHard
      wifiVersionSoft := payload.WifiVersionSoft
      seen := now }
  | .devStatus payload =>
    { d with
      state := payload.OnOff
      brightness := payload.Brightness
      color := payload.Color
      colorKelvin := payload.ColorKelvin
      seen := now
      statusUpdate := emitStatusSignal d.statusUpdate now }

/-- Payload of the `turn` command built by `Device.TurnOn`. -/
def turnOnPayload : onOffRequest := ⟨1⟩

/-- Payload of the `turn` command built by `Device.TurnOff`. -/
def turnOffPayload : onOffRequest := ⟨0⟩

/-- `Device.Toggle`: chooses `TurnOff` when the cached state equals 1 and
`TurnOn` otherwise; this is the payload the chosen call enqueues. -/
def Device.togglePayload (d : Device) : onOffRequest :=
  if d.state = 1 then turnOffPayload else turnOnPayload

/- ## RequestStatus (device.go): the two `select` statements -/

/-- Outcome of the first `select` of `Device.RequestStatus` (send the
query / context done / `default`). -/
inductive EnqueueOutcome where
  | enqueued
  | canceledError
  | deliveryError
deriving DecidableEq, Repr

/-- Possible outcomes of the enqueue `select`, as a function of whether
the shared command queue can accept a message right now and whether the
shared cancellation has fired.  With a `default` arm the statement never
blocks: a ready arm is taken (either one when both are ready), and the
`default` arm returns the delivery error only when neither is ready. -/
def requestStatusEnqueueOutcomes (queueReady ctxDone : Bool) :
    List EnqueueOutcome :=
  match queueReady, ctxDone with
  | true, false => [.enqueued]
  | true, true => [.enqueued, .canceledError]
  | false, true => [.canceledError]
  | false, false => [.deliveryError]

/-- Outcome of the second `select` of `Device.RequestStatus` (status
signal / 5-second timer / context done). -/
inductive WaitOutcome where
  | success
  | timeoutError
  | canceledError
deriving DecidableEq, Repr

/-- Possible outcomes of the blocking three-way wait, as a function of
which of its three arms is ready; an empty list means the caller stays
blocked until an arm becomes ready. -/
def requestStatusWaitOutcomes (signalReady timerFired ctxDone : Bool) :
    List WaitOutcome :=
  (if signalReady then [WaitOutcome.success] else []) ++
    (if timerFired then [WaitOutcome.timeoutError] else []) ++
      (if ctxDone then [WaitOutcome.canceledError] else [])

/- ## Controller (controller.go) -/

/-- `Message`: destination IP plus the marshaled payload bytes. -/
structure Message where
  IP : String
  Payload : List Char
deriving DecidableEq, Repr

/-- The dispatcher's target selection for a drained message:
`"%s:4001"` for the multicast discovery address, `"%s:4003"` otherwise. -/
def sendTarget (m : Message) : String :=
  if m.IP = "239.255.255.250" then m.IP ++ ":4001" else m.IP ++ ":4003"

/-- The registry: the controller's ordered `devices` slice. -/
structure ControllerState where
  devices : List Device
deriving DecidableEq, Repr

/-- The `Device` literal built by the listener for an unknown source IP:
only `ip` is populated; every other field is the Go zero value, and the
fresh `statusUpdate` buffer is empty. -/
def freshDevice (ip : String) : Device :=
  { seen := 0
    ip := ip
    deviceID := ""
    sku := ""
    bleVersionHard := ⟨0, 0, 0⟩
    bleVersionSoft := ⟨0, 0, 0⟩
    wifiVersionHard := ⟨0, 0, 0⟩
    wifiVersionSoft := ⟨0, 0, 0⟩
    state := 0
    brightness := 0
    color := ⟨0, 0, 0⟩
    colorKelvin := 0
    statusUpdate := none }

/-- Decode outcome of one received datagram, abstracting
`json.Unmarshal` of the envelope and of the per-command payload. -/
inductive DecodeResult where
  | badEnvelope
  | scanOk (msg : scanResponse)
  | badScan
  | devStatusOk (msg : devStatusResponse)
  | badStatus
  | unknownCmd (cmd : String)
deriving DecidableEq, Repr

/-- Whether the datagram's envelope or payload failed to decode. -/
def DecodeResult.isDecodeFailure : DecodeResult → Bool
  | .badEnvelope => true
  | .badScan => true
  | .badStatus => true
  | _ => false

/-- The payload the listener routes to the device worker, when any. -/
def DecodeResult.routedPayload : DecodeResult → Option ResponsePayload
  | .scanOk msg => some (.scan msg)
  | .devStatusOk msg => some (.devStatus msg)
  | _ => none

/-- One iteration of the listener loop for a received datagram from
`src`.  Faithful to the source's order: the registry lookup happens
first, and an unknown source IP is registered (a fresh device appended)
BEFORE the envelope is parsed; then the decode outcome either routes a
payload to that device's worker (modelled synchronously via
`Device.applyResponse`) or drops the datagram. -/
def listenerStep (s : ControllerState) (now : Nat) (src : String)
    (dec : DecodeResult) : ControllerState :=
  let found := s.devices.findIdx? (fun d => d.ip == src)
  let devs := match found with
    | some _ => s.devices
    | none => s.devices ++ [freshDevice src]
  let idx := match found with
    | some i => i
    | none => s.devices.length
  match dec.routedPayload with
  | none => ⟨devs⟩
  | some payload =>
    ⟨devs.set idx ((devs.getD idx (freshDevice src)).applyResponse now payload)⟩

/- ## Theorems -/

/-- C5: decoding the version string `"1.00.10"` succeeds with
{major 1, minor 0, patch 10}, and re-encoding that triple produces
`"1.0.10"`: leading zeros are not preserved across the round trip. -/
theorem version_leading_zeros_not_preserved :
    Version.unmarshalJSON ⟨0, 0, 0⟩ "\"1.00.10\"".toList =
      (⟨1, 0, 10⟩, none) ∧
    Version.marshalJSON ⟨1, 0, 10⟩ = "\"1.0.10\"".toList := by
  decide

/-- C7: the kelvin constructor clamps every input to [2000, 9000]:
inputs below 2000 yield 2000, inputs above 9000 yield 9000, and
in-range inputs are returned unchanged. -/
theorem kelvin_constructor_clamps (n : Nat) :
    (n < 2000 → NewColorKelvin n = 2000) ∧
    (9000 < n → NewColorKelvin n = 9000) ∧
    (2000 ≤ n → n ≤ 9000 → NewColorKelvin n = n) ∧
    2000 ≤ NewColorKelvin n ∧ NewColorKelvin n ≤ 9000 := by
  simp only [NewColorKelvin]
  split_ifs <;> omega

/-- Witness for C7 at the spec's sample inputs 500, 20000 and an
in-range 3500. -/
theorem kelvin_constructor_clamps_witness :
    NewColorKelvin 500 = 2000 ∧ NewColorKelvin 20000 = 9000 ∧
    NewColorKelvin 3500 = 3500 :=
  ⟨(kelvin_constructor_clamps 500).1 (by decide),
   (kelvin_constructor_clamps 20000).2.1 (by decide),
   (kelvin_constructor_clamps 3500).2.2.1 (by decide) (by decide)⟩

/-- C10: `Toggle` enqueues the turn-off payload exactly when the cached
on/off state equals 1; every other cached value (including values
greater than 1) enqueues the turn-on payload. -/
theorem toggle_direction_from_cached_state (d : Device) :
    (d.state = 1 → d.togglePayload = turnOffPayload) ∧
    (d.state ≠ 1 → d.togglePayload = turnOnPayload) ∧
    turnOffPayload.Value = 0 ∧ turnOnPayload.Value = 1 := by
  refine ⟨fun h => ?_, fun h => ?_, rfl, rfl⟩ <;>
    simp [Device.togglePayload, h]

/-- Witness for C10 at cached states 1 and 5 (a value greater than 1). -/
theorem toggle_direction_witness :
    ({ freshDevice "a" with state := 1 } : Device).togglePayload =
      turnOffPayload ∧
    ({ freshDevice "a" with state := 5 } : Device).togglePayload =
      turnOnPayload :=
  ⟨(toggle_direction_from_cached_state _).1 rfl,
   (toggle_direction_from_cached_state _).2.1 (by decide)⟩

/-- C6: the dispatcher's target for a drained message depends only on
the destination IP: the multicast discovery address goes to port 4001,
every other IP to port 4003. -/
theorem dispatcher_port_selection (m : Message) :
    (m.IP = "239.255.255.250" →
      sendTarget m = "239.255.255.250:4001") ∧
    (m.IP ≠ "239.255.255.250" → sendTarget m = m.IP ++ ":4003") ∧
    (∀ m₂ : Message, m₂.IP = m.IP → sendTarget m₂ = sendTarget m) := by
  refine ⟨fun h => ?_, fun h => ?_, fun m₂ h => ?_⟩
  · rw [sendTarget, if_pos h, h]
    decide
  · rw [sendTarget, if_neg h]
  · rw [sendTarget, sendTarget, h]

/-- Witness for C6: the multicast discovery address and a unicast
device address. -/
theorem dispatcher_port_selection_witness :
    sendTarget ⟨"239.255.255.250", []⟩ = "239.255.255.250:4001" ∧
    sendTarget ⟨"192.168.1.23", []⟩ = "192.168.1.23" ++ ":4003" :=
  ⟨(dispatcher_port_selection _).1 rfl,
   (dispatcher_port_selection _).2.1 (by decide)⟩

/-- C3 counterexample: decoding `"1.2"` into a receiver holding
{7, 8, 9} returns the version-format error but leaves the fields at
{7, 8, 9} — they are NOT reset to zero. -/
theorem version_decode_two_components_counterexample :
    (Version.unmarshalJSON ⟨7, 8, 9⟩ "\"1.2\"".toList).2 =
      some .invalidFormat ∧
    (Version.unmarshalJSON ⟨7, 8, 9⟩ "\"1.2\"".toList).1 ≠ ⟨0, 0, 0⟩ := by
  decide

/-- C3 amended: decoding an input without exactly three dot-separated
components fails with the bare version-format error and leaves the
receiver unchanged (so a fresh zero receiver stays zero). -/
theorem version_decode_wrong_arity_keeps_receiver (v : Version)
    (b : List Char) (h : ((trimQuotes b).splitOn '.').length ≠ 3) :
    Version.unmarshalJSON v b = (v, some .invalidFormat) := by
  unfold Version.unmarshalJSON
  rw [if_pos h]

/-- Witness for the amended C3 at input `"1.2"` and receiver {7, 8, 9}. -/
theorem version_decode_wrong_arity_witness :
    ((trimQuotes "\"1.2\"".toList).splitOn '.').length ≠ 3 ∧
    Version.unmarshalJSON ⟨7, 8, 9⟩ "\"1.2\"".toList =
      (⟨7, 8, 9⟩, some .invalidFormat) :=
  ⟨by decide,
   version_decode_wrong_arity_keeps_receiver ⟨7, 8, 9⟩ _ (by decide)⟩

/-- C8: for every input that splits into exactly three components of
which some component fails integer parsing, decoding fails with an error
wrapping the version-format error and zeroes all three fields of the
receiver, even when an earlier component had already been assigned. -/
theorem version_decode_bad_component_zeroes_fields (v : Version)
    (b : List Char)
    (hlen : ((trimQuotes b).splitOn '.').length = 3)
    (hbad : ∃ i, i < 3 ∧
      atoi (((trimQuotes b).splitOn '.').getD i []) = none) :
    (Version.unmarshalJSON v b).1 = ⟨0, 0, 0⟩ ∧
    ∃ e, (Version.unmarshalJSON v b).2 = some e ∧
      e.wrapsInvalidFormat = true := by
  obtain ⟨i, hi, hnone⟩ := hbad
  unfold Version.unmarshalJSON
  rw [if_neg (by simp [hlen])]
  rcases h0 : atoi (((trimQuotes b).splitOn '.').getD 0 []) with _ | a
  · exact ⟨rfl, .invalidMajor, rfl, rfl⟩
  · rcases h1 : atoi (((trimQuotes b).splitOn '.').getD 1 []) with _ | a1
    · exact ⟨rfl, .invalidMinor, rfl, rfl⟩
    · rcases h2 : atoi (((trimQuotes b).splitOn '.').getD 2 []) with _ | a2
      · exact ⟨rfl, .invalidPatch, rfl, rfl⟩
      · exfalso
        interval_cases i <;> simp_all

/-- Witness for C8 at input `"1.b.3"` (second component unparsable) and
receiver {4, 5, 6}. -/
theorem version_decode_bad_component_witness :
    (Version.unmarshalJSON ⟨4, 5, 6⟩ "\"1.b.3\"".toList).1 = ⟨0, 0, 0⟩ ∧
    ∃ e, (Version.unmarshalJSON ⟨4, 5, 6⟩ "\"1.b.3\"".toList).2 = some e ∧
      e.wrapsInvalidFormat = true :=
  version_decode_bad_component_zeroes_fields ⟨4, 5, 6⟩ _ (by decide)
    ⟨1, by decide, by decide⟩

/-- C1 counterexample: a datagram from an unregistered source IP whose
envelope fails to decode still creates and registers a device — the
registry grows from empty to one entry. -/
theorem listener_decode_failure_counterexample :
    listenerStep ⟨[]⟩ 0 "10.0.0.1" .badEnvelope ≠ ⟨[]⟩ ∧
    (listenerStep ⟨[]⟩ 0 "10.0.0.1" .badEnvelope).devices.length = 1 := by
  decide

/-- C1 amended: on a decode failure the datagram is dropped and no
existing device is mutated; but the registry lookup/creation precedes
decoding, so a datagram from an unknown source IP appends exactly one
fresh zero-state device even when decoding fails. -/
theorem listener_decode_failure_drops_after_registration
    (s : ControllerState) (now : Nat) (src : String) (dec : DecodeResult)
    (hdec : dec.isDecodeFailure = true) :
    (s.devices.findIdx? (fun d => d.ip == src) ≠ none →
      listenerStep s now src dec = s) ∧
    (s.devices.findIdx? (fun d => d.ip == src) = none →
      (listenerStep s now src dec).devices =
        s.devices ++ [freshDevice src]) := by
  have hroute : dec.routedPayload = none := by
    cases dec <;> simp_all [DecodeResult.isDecodeFailure,
      DecodeResult.routedPayload]
  constructor
  · intro h
    rcases hf : s.devices.findIdx? (fun d => d.ip == src) with _ | i
    · exact absurd hf h
    · simp [listenerStep, hroute, hf]
  · intro h
    simp [listenerStep, hroute, h]

/-- Witness for the amended C1: a known source leaves the registry
untouched; an unknown source appends one fresh device. -/
theorem listener_decode_failure_witness :
    listenerStep ⟨[freshDevice "10.0.0.1"]⟩ 3 "10.0.0.1" .badScan =
      ⟨[freshDevice "10.0.0.1"]⟩ ∧
    (listenerStep ⟨[]⟩ 3 "10.0.0.2" .badScan).devices =
      [] ++ [freshDevice "10.0.0.2"] :=
  ⟨(listener_decode_failure_drops_after_registration ⟨[freshDevice "10.0.0.1"]⟩
      3 "10.0.0.1" .badScan (by decide)).1 (by decide),
   (listener_decode_failure_drops_after_registration ⟨[]⟩ 3 "10.0.0.2"
      .badScan (by decide)).2 (by decide)⟩

/-- C2 counterexample: applying a status response to a device with an
empty signal slot and no blocked waiter leaves the slot occupied — the
signal is retained, and a later `RequestStatus` wait consumes it
successfully, contradicting "the signal is dropped". -/
theorem status_signal_retained_counterexample :
    ((freshDevice "192.168.1.23").applyResponse 7
        (.devStatus ⟨1, 50, ⟨1, 2, 3⟩, 3000⟩)).statusUpdate ≠ none ∧
    (consumeStatusSignal
        ((freshDevice "192.168.1.23").applyResponse 7
          (.devStatus ⟨1, 50, ⟨1, 2, 3⟩, 3000⟩)).statusUpdate).2 = true := by
  decide

/-- C2 amended: with no caller blocked in `RequestStatus`, a status
response stores its completion signal in the single-slot buffer when the
slot is empty (so a later `RequestStatus` CAN complete by consuming it),
and drops the new signal only when a signal is already buffered. -/
theorem status_signal_single_slot (d : Device) (now : Nat)
    (p : devStatusResponse) :
    (d.statusUpdate = none →
      (d.applyResponse now (.devStatus p)).statusUpdate = some now ∧
      (consumeStatusSignal
        (d.applyResponse now (.devStatus p)).statusUpdate).2 = true) ∧
    (∀ t, d.statusUpdate = some t →
      (d.applyResponse now (.devStatus p)).statusUpdate = some t) := by
  refine ⟨fun h => ?_, fun t h => ?_⟩ <;>
    simp [Device.applyResponse, emitStatusSignal, consumeStatusSignal, h]

/-- Witness for the amended C2: an empty slot buffers the signal; an
occupied slot keeps the old signal. -/
theorem status_signal_single_slot_witness :
    ((freshDevice "a").applyResponse 7
        (.devStatus ⟨1, 50, ⟨1, 2, 3⟩, 3000⟩)).statusUpdate = some 7 ∧
    (consumeStatusSignal ((freshDevice "a").applyResponse 7
        (.devStatus ⟨1, 50, ⟨1, 2, 3⟩, 3000⟩)).statusUpdate).2 = true ∧
    (({ freshDevice "a" with statusUpdate := some 4 } : Device).applyResponse
        7 (.devStatus ⟨1, 50, ⟨1, 2, 3⟩, 3000⟩)).statusUpdate = some 4 :=
  ⟨((status_signal_single_slot (freshDevice "a") 7 _).1 rfl).1,
   ((status_signal_single_slot (freshDevice "a") 7 _).1 rfl).2,
   (status_signal_single_slot _ 7 _).2 4 rfl⟩

/-- C4 counterexample: when the queue cannot accept the message but
shared cancellation has already fired, the enqueue `select` returns the
canceled error, not a delivery error. -/
theorem request_status_enqueue_counterexample :
    requestStatusEnqueueOutcomes false true ≠
      [EnqueueOutcome.deliveryError] ∧
    EnqueueOutcome.deliveryError ∉ requestStatusEnqueueOutcomes false true := by
  decide

/-- C4 amended: `RequestStatus` blocks on exactly the three wait
alternatives (signal → success, timer → timeout error, cancellation →
canceled error), and the enqueue step never blocks — it always has an
immediate outcome; when the queue cannot accept the message it returns a
delivery error, unless shared cancellation has already fired, in which
case it returns the canceled error. -/
theorem request_status_enqueue_and_wait
    (queueReady ctxDone signalReady timerFired waitDone : Bool) :
    requestStatusEnqueueOutcomes queueReady ctxDone ≠ [] ∧
    (queueReady = false → ctxDone = false →
      requestStatusEnqueueOutcomes queueReady ctxDone =
        [.deliveryError]) ∧
    (queueReady = false → ctxDone = true →
      requestStatusEnqueueOutcomes queueReady ctxDone =
        [.canceledError]) ∧
    (WaitOutcome.success ∈
        requestStatusWaitOutcomes signalReady timerFired waitDone ↔
      signalReady = true) ∧
    (WaitOutcome.timeoutError ∈
        requestStatusWaitOutcomes signalReady timerFired waitDone ↔
      timerFired = true) ∧
    (WaitOutcome.canceledError ∈
        requestStatusWaitOutcomes signalReady timerFired waitDone ↔
      waitDone = true) := by
  cases queueReady <;> cases ctxDone <;> cases signalReady <;>
    cases timerFired <;> cases waitDone <;> decide

/-- Witness for the amended C4: queue unavailable without cancellation
gives the delivery error; with cancellation the canceled error; a ready
signal makes success an available wait outcome. -/
theorem request_status_enqueue_and_wait_witness :
    requestStatusEnqueueOutcomes false false =
      [EnqueueOutcome.deliveryError] ∧
    requestStatusEnqueueOutcomes false true =
      [EnqueueOutcome.canceledError] ∧
    WaitOutcome.success ∈ requestStatusWaitOutcomes true false false :=
  ⟨(request_status_enqueue_and_wait false false true false false).2.1 rfl rfl,
   (request_status_enqueue_and_wait false true true false false).2.2.1 rfl rfl,
   (request_status_enqueue_and_wait false false true false
       false).2.2.2.1.mpr rfl⟩

/- ## Round-trip lemmas for the version codec -/

theorem natReprAux_fuel_irrel (f : Nat) :
    ∀ g n : Nat, n < f → n < g → natReprAux f n = natReprAux g n := by
  induction f with
  | zero => intro g n hf hg; omega
  | succ f ih =>
    intro g n hf hg
    cases g with
    | zero => omega
    | succ g =>
      simp only [natReprAux]
      by_cases h10 : n < 10
      · simp [h10]
      · have hdiv : n / 10 < n := Nat.div_lt_self (by omega) (by omega)
        simp only [if_neg h10]
        rw [ih g (n / 10) (by omega) (by omega)]

theorem natRepr_unfold (n : Nat) :
    natRepr n = if n < 10 then [digitChar n]
      else natRepr (n / 10) ++ [digitChar (n % 10)] := by
  by_cases h10 : n < 10
  · simp [natRepr, natReprAux, h10]
  · have hdiv : n / 10 < n := Nat.div_lt_self (by omega) (by omega)
    rw [if_neg h10]
    show natReprAux (n + 1) n =
      natReprAux (n / 10 + 1) (n / 10) ++ [digitChar (n % 10)]
    have step : natReprAux (n + 1) n =
        natReprAux n (n / 10) ++ [digitChar (n % 10)] := by
      simp only [natReprAux, if_neg h10]
    rw [step, natReprAux_fuel_irrel n (n / 10 + 1) (n / 10) (by omega)
      (by omega)]

theorem digitChar_toNat (d : Nat) (h : d < 10) :
    (digitChar d).toNat = 48 + d := by
  interval_cases d <;> rfl

theorem isDigitCh_digitChar (d : Nat) (h : d < 10) :
    isDigitCh (digitChar d) = true := by
  interval_cases d <;> decide

theorem natRepr_ne_nil (n : Nat) : natRepr n ≠ [] := by
  rw [natRepr_unfold]
  split <;> simp

theorem natRepr_all_digits (n : Nat) :
    ∀ c ∈ natRepr n, isDigitCh c = true := by
  induction n using Nat.strong_induction_on with
  | _ n ih =>
    rw [natRepr_unfold]
    split
    · rename_i h10
      intro c hc
      rw [List.mem_singleton] at hc
      subst hc
      exact isDigitCh_digitChar n h10
    · rename_i h10
      intro c hc
      rw [List.mem_append] at hc
      rcases hc with hc | hc
      · exact ih (n / 10) (Nat.div_lt_self (by omega) (by omega)) c hc
      · rw [List.mem_singleton] at hc
        subst hc
        exact isDigitCh_digitChar (n % 10) (Nat.mod_lt n (by omega))

theorem digitsVal_natRepr (n : Nat) : digitsVal (natRepr n) = n := by
  induction n using Nat.strong_induction_on with
  | _ n ih =>
    rw [natRepr_unfold]
    split
    · rename_i h10
      simp [digitsVal, digitChar_toNat n h10]
    · rename_i h10
      have hrec := ih (n / 10) (Nat.div_lt_self (by omega) (by omega))
      simp only [digitsVal] at hrec ⊢
      rw [List.foldl_append, hrec]
      simp only [List.foldl_cons, List.foldl_nil]
      rw [digitChar_toNat (n % 10) (Nat.mod_lt n (by omega))]
      omega

theorem parseDigits_natRepr (n : Nat) : parseDigits (natRepr n) = some n := by
  rw [parseDigits, if_pos, digitsVal_natRepr]
  refine ⟨natRepr_ne_nil n, ?_⟩
  rw [List.all_eq_true]
  exact natRepr_all_digits n

theorem isDigitCh_ne_special (c : Char) (h : isDigitCh c = true) :
    c ≠ '.' ∧ c ≠ '"' ∧ c ≠ '-' ∧ c ≠ '+' := by
  refine ⟨?_, ?_, ?_, ?_⟩ <;> rintro rfl <;> revert h <;> decide

theorem atoi_natRepr (n : Nat) : atoi (natRepr n) = some (n : Int) := by
  rcases hrep : natRepr n with _ | ⟨c, cs⟩
  · exact absurd hrep (natRepr_ne_nil n)
  · have hc : isDigitCh c = true := by
      have hmem := natRepr_all_digits n c
      rw [hrep] at hmem
      exact hmem (List.mem_cons_self c cs)
    obtain ⟨-, -, hminus, hplus⟩ := isDigitCh_ne_special c hc
    simp only [atoi, if_neg hminus, if_neg hplus]
    rw [← hrep, parseDigits_natRepr]
    rfl

theorem dropWhile_quote_cons_quote (l : List Char) :
    List.dropWhile (· == '"') ('"' :: l) = List.dropWhile (· == '"') l := by
  simp [List.dropWhile_cons]

theorem dropWhile_quote_of_head (c : Char) (cs : List Char) (hc : c ≠ '"') :
    List.dropWhile (· == '"') (c :: cs) = c :: cs := by
  simp [List.dropWhile_cons, hc]

theorem trimQuotes_wrap (s : List Char) (h : ∀ c ∈ s, c ≠ '"') :
    trimQuotes ('"' :: (s ++ ['"'])) = s := by
  unfold trimQuotes
  rw [dropWhile_quote_cons_quote]
  cases s with
  | nil => decide
  | cons c cs =>
    have hc : c ≠ '"' := h c (List.mem_cons_self c cs)
    rw [List.cons_append, dropWhile_quote_of_head c (cs ++ ['"']) hc]
    rw [← List.cons_append, List.reverse_append]
    show (List.dropWhile (· == '"') ('"' :: (c :: cs).reverse)).reverse =
      c :: cs
    rw [dropWhile_quote_cons_quote]
    rcases hrev : (c :: cs).reverse with _ | ⟨d, ds⟩
    · exact absurd hrev (by simp)
    · have hd : d ≠ '"' := by
        have hdm : d ∈ (c :: cs).reverse := by
          rw [hrev]
          exact List.mem_cons_self d ds
        exact h d (List.mem_reverse.mp hdm)
      rw [dropWhile_quote_of_head d ds hd, ← hrev, List.reverse_reverse]

theorem splitOnP_no_dot (l : List Char) (h : ∀ x ∈ l, x ≠ '.') :
    l.splitOnP (· == '.') = [l] :=
  List.splitOnP_eq_single (· == '.') l (fun x hx => by simp [h x hx])

theorem splitOn_three (a b c : List Char)
    (ha : ∀ x ∈ a, x ≠ '.') (hb : ∀ x ∈ b, x ≠ '.')
    (hc : ∀ x ∈ c, x ≠ '.') :
    (a ++ '.' :: (b ++ '.' :: c)).splitOn '.' = [a, b, c] := by
  rw [List.splitOn]
  rw [List.splitOnP_first (· == '.') a (fun x hx => by simp [ha x hx]) '.'
    (by simp) (b ++ '.' :: c)]
  rw [List.splitOnP_first (· == '.') b (fun x hx => by simp [hb x hx]) '.'
    (by simp) c]
  rw [splitOnP_no_dot c hc]

/-- C9: for every Version with non-negative components, decoding its
encoded string form (into any receiver) yields the original Version and
no error: encode-then-decode is the identity. -/
theorem version_encode_decode_roundtrip (u v : Version)
    (hM : 0 ≤ v.Major) (hm : 0 ≤ v.Minor) (hp : 0 ≤ v.Patch) :
    Version.unmarshalJSON u (Version.marshalJSON v) = (v, none) := by
  obtain ⟨M, m, p⟩ := v
  replace hM : 0 ≤ M := hM
  replace hm : 0 ≤ m := hm
  replace hp : 0 ≤ p := hp
  have eM : intRepr M = natRepr M.toNat := by rw [intRepr, if_neg (by omega)]
  have em : intRepr m = natRepr m.toNat := by rw [intRepr, if_neg (by omega)]
  have ep : intRepr p = natRepr p.toNat := by rw [intRepr, if_neg (by omega)]
  have hstr : Version.string ⟨M, m, p⟩ =
      natRepr M.toNat ++ '.' :: (natRepr m.toNat ++ '.' :: natRepr p.toNat) := by
    rw [Version.string, eM, em, ep]
  have hnoq : ∀ c ∈ Version.string ⟨M, m, p⟩, c ≠ '"' := by
    rw [hstr]
    intro c hcmem
    simp only [List.mem_append, List.mem_cons] at hcmem
    rcases hcmem with h1 | h1 | h1 | h1 | h1
    · exact (isDigitCh_ne_special c (natRepr_all_digits _ c h1)).2.1
    · subst h1; decide
    · exact (isDigitCh_ne_special c (natRepr_all_digits _ c h1)).2.1
    · subst h1; decide
    · exact (isDigitCh_ne_special c (natRepr_all_digits _ c h1)).2.1
  have hnodotA : ∀ x ∈ natRepr M.toNat, x ≠ '.' :=
    fun x hx => (isDigitCh_ne_special x (natRepr_all_digits _ x hx)).1
  have hnodotB : ∀ x ∈ natRepr m.toNat, x ≠ '.' :=
    fun x hx => (isDigitCh_ne_special x (natRepr_all_digits _ x hx)).1
  have hnodotC : ∀ x ∈ natRepr p.toNat, x ≠ '.' :=
    fun x hx => (isDigitCh_ne_special x (natRepr_all_digits _ x hx)).1
  simp only [Version.unmarshalJSON, Version.marshalJSON]
  rw [trimQuotes_wrap _ hnoq, hstr, splitOn_three _ _ _ hnodotA hnodotB hnodotC]
  simp only [List.length_cons, List.length_nil, List.getD_cons_zero,
    List.getD_cons_succ]
  rw [if_neg (by omega)]
  rw [atoi_natRepr, atoi_natRepr, atoi_natRepr]
  show ((⟨(M.toNat : Int), (m.toNat : Int), (p.toNat : Int)⟩ : Version),
      (none : Option VersionError)) = (⟨M, m, p⟩, none)
  rw [Int.toNat_of_nonneg hM, Int.toNat_of_nonneg hm, Int.toNat_of_nonneg hp]

/-- Witness for C9 at Version {1, 2, 3} decoded into receiver {9, 9, 9}. -/
theorem version_encode_decode_roundtrip_witness :
    Version.unmarshalJSON ⟨9, 9, 9⟩ (Version.marshalJSON ⟨1, 2, 3⟩) =
      (⟨1, 2, 3⟩, none) :=
  version_encode_decode_roundtrip ⟨9, 9, 9⟩ ⟨1, 2, 3⟩ (by decide) (by decide)
    (by decide)
